import Mathlib

/-!
Verification of the PDFConvertor parallel batch processor.

Shallow embedding of the parts of the repository the claims talk about:

* `src/converters/parallel_processor.py` — `ParallelProcessor`
* `src/converters/document_converter.py` — `DocumentConverter.convert_document`
* `src/converters/pdf_generator.py` — `PDFGenerator.generate_pdf`
* `src/validators/batch_validator.py` — `BatchValidator.validate_batch`
* `src/config/settings.py` — `Config`

File-system effects, logging and the actual third-party document/PDF
libraries are modelled as oracles (functions supplied as parameters):
the Python code only ever consults them through
`FileValidator.validate_file` and `DocumentConverter.convert_document`,
both of which receive exactly the file path(s) as input.  Wall-clock
times are passed in explicitly as rationals.  The nondeterministic
completion order of `concurrent.futures.as_completed` is modelled as an
explicit list `order` that is a permutation of the submitted files.
-/

namespace PDFConvertor

/-- Exceptions and results of Python calls: a call either returns a value
or raises an exception carrying a message (`str(e)`). -/
inductive PyResult (α : Type) where
  | ok : α → PyResult α
  | exn : String → PyResult α
deriving DecidableEq, Repr

/-! ## `pathlib` fragment

The Python code uses `Path(p).stem`, `Path(p).suffix` and
`Path(output_dir) / name`.  We model POSIX paths as strings.
CPython's `pathlib` computes `name` as the last non-empty component,
and `stem`/`suffix` by the position `i` of the last dot in `name`:
the suffix is `name[i:]` when `0 < i < len(name) - 1`, else empty. -/

/-- Split a character list at `'/'`, Python `s.split("/")` style: `""`
gives `[""]`, adjacent slashes give empty components. -/
def splitSlash : List Char → List (List Char)
  | [] => [[]]
  | c :: rest =>
    match splitSlash rest with
    | [] => [[]]
    | cur :: comps =>
      if c = '/' then [] :: cur :: comps else (c :: cur) :: comps

/-- Join components with `'/'` separators (inverse of `splitSlash` on
slash-free components). -/
def joinSlash : List (List Char) → List Char
  | [] => []
  | [c] => c
  | c :: rest => c ++ '/' :: joinSlash rest

/-- Model of `Path(p).name`: the final path component (last non-empty piece between
slashes). -/
def pathName (p : String) : String :=
  String.mk ((((splitSlash p.toList).filter (fun c => c ≠ [])).getLast?).getD [])

/-- Index of the last `'.'` in a list of characters, if any. -/
def lastDotIdx (cs : List Char) : Option Nat :=
  ((List.range cs.length).filter (fun i => cs.get? i = some '.')).getLast?

/-- Model of `Path(p).stem`: `name` without its suffix.  Mirrors CPython:
`name[:i]` when the last dot is at `0 < i < len(name) - 1`, else `name`. -/
def pathStem (p : String) : String :=
  let n := (pathName p).toList
  match lastDotIdx n with
  | some i => if 0 < i ∧ i < n.length - 1 then String.mk (n.take i) else String.mk n
  | none => String.mk n

/-- Model of `Path(p).suffix`: `name[i:]` when the last dot is at
`0 < i < len(name) - 1`, else the empty string. -/
def pathSuffix (p : String) : String :=
  let n := (pathName p).toList
  match lastDotIdx n with
  | some i => if 0 < i ∧ i < n.length - 1 then String.mk (n.drop i) else ""
  | none => ""

/-- Model of `str(Path(d) / n)`: join a directory and a file name, normalising the
directory the way `pathlib` renders it (repeated and trailing slashes
collapsed; `Path("")` is `.` and joining onto it yields just the name). -/
def pathJoin (d n : String) : String :=
  let comps := (splitSlash d.toList).filter (fun c => c ≠ [])
  let isAbs : Bool := match d.toList with | '/' :: _ => true | _ => false
  if isAbs then
    if comps = [] then String.mk ('/' :: n.toList)
    else String.mk (('/' :: joinSlash comps) ++ '/' :: n.toList)
  else
    if comps = [] then n
    else String.mk (joinSlash comps ++ '/' :: n.toList)

/-! ## `config.settings` -/

/-- The configuration attributes the claims depend on
(`src/config/settings.py`, class `Config`).  Values may be overridden by
`config.yaml` or environment variables, so the field is abstract; the
constructor default is 4. -/
structure Config where
  max_workers : Nat
deriving DecidableEq, Repr

/-- The `Config.__init__` default (`self.max_workers = 4`). -/
def defaultConfig : Config := { max_workers := 4 }

/-! ## `ParallelProcessor` state -/

/-- State `self.stats` of `ParallelProcessor` (`__init__`, lines 28–35).
Times are rationals; `none` models Python `None`. -/
structure Stats where
  total_files : Nat
  processed_files : Nat
  successful_conversions : Nat
  failed_conversions : Nat
  start_time : Option ℚ
  end_time : Option ℚ
deriving DecidableEq, Repr

/-- The all-zero statistics installed by `__init__` and `reset_stats`. -/
def freshStats : Stats :=
  { total_files := 0
    processed_files := 0
    successful_conversions := 0
    failed_conversions := 0
    start_time := none
    end_time := none }

/-- The mutable fields of a `ParallelProcessor` instance. -/
structure ParallelProcessor where
  max_workers : Nat
  stats : Stats
deriving DecidableEq, Repr

/-- Model of `ParallelProcessor.__init__(max_workers)`: the Python expression
`max_workers or config.max_workers` falls back to the config value both
when the argument is omitted (`None`) and when it is `0` (falsy). -/
def mkParallelProcessor (cfg : Config) (mw : Option Nat) : ParallelProcessor :=
  { max_workers :=
      match mw with
      | some m => if m ≠ 0 then m else cfg.max_workers
      | none => cfg.max_workers
    stats := freshStats }

/-- Model of `ParallelProcessor.reset_stats`. -/
def ParallelProcessor.reset_stats (p : ParallelProcessor) : ParallelProcessor :=
  { p with stats := freshStats }

/-- Model of `ParallelProcessor.get_optimal_worker_count(file_count)`
(lines 290–308), with `mp.cpu_count()` passed in as `cpu_count`. -/
def get_optimal_worker_count (p : ParallelProcessor) (cpu_count file_count : Nat) : Nat :=
  if file_count ≤ 5 then min 2 cpu_count
  else if file_count ≤ 20 then min 4 cpu_count
  else min p.max_workers cpu_count

/-- Model of `ParallelProcessor._get_output_path(input_path, output_dir)`
(lines 192–205): `Path(output_dir) / f"{Path(input_path).stem}.pdf"`. -/
def get_output_path (input_path output_dir : String) : String :=
  pathJoin output_dir (pathStem input_path ++ ".pdf")

/-! ## Results of a `process_files` call -/

/-- An entry of `results['successful']`:
`{'input': file_path, 'output': output_path}`. -/
structure SuccessEntry where
  input : String
  output : String
deriving DecidableEq, Repr

/-- An entry of `results['failed']`:
`{'input': file_path, 'error': error_msg}` — `error_msg` may be `None`. -/
structure FailEntry where
  input : String
  error : Option String
deriving DecidableEq, Repr

/-- Rendering of a Python value in an f-string: `None` prints as `"None"`. -/
def pyStrOpt : Option String → String
  | some s => s
  | none => "None"

/-- The dictionary built by `_calculate_final_stats` (lines 207–231) and by
`_create_error_result` (lines 243–257). -/
structure FinalStats where
  total_files : Nat
  processed_files : Nat
  successful_conversions : Nat
  failed_conversions : Nat
  success_rate : ℚ
  total_time : ℚ
  average_time_per_file : ℚ
  files_per_minute : ℚ
deriving DecidableEq, Repr

/-- Model of `ParallelProcessor._calculate_final_stats` (lines 207–231), reading the
instance's `self.stats` at call time. -/
def calculate_final_stats (s : Stats) : FinalStats :=
  let total_time : ℚ :=
    match s.start_time, s.end_time with
    | some st, some en => en - st
    | _, _ => 0
  let success_rate : ℚ :=
    if 0 < s.processed_files then
      (s.successful_conversions : ℚ) / (s.processed_files : ℚ) * 100
    else 0
  { total_files := s.total_files
    processed_files := s.processed_files
    successful_conversions := s.successful_conversions
    failed_conversions := s.failed_conversions
    success_rate := success_rate
    total_time := total_time
    average_time_per_file :=
      if 0 < s.processed_files then total_time / (s.processed_files : ℚ) else 0
    files_per_minute :=
      if 0 < total_time then (s.processed_files : ℚ) / total_time * 60 else 0 }

/-- The dictionary returned by `process_files`. -/
structure Results where
  successful : List SuccessEntry
  failed : List FailEntry
  errors : List String
  stats : FinalStats
deriving DecidableEq, Repr

/-- Model of `ParallelProcessor._create_error_result(error_message)` (lines 233–257):
every statistic is a literal zero except `total_files`, which is read from
`self.stats`. -/
def create_error_result (s : Stats) (error_message : String) : Results :=
  { successful := []
    failed := []
    errors := [error_message]
    stats :=
      { total_files := s.total_files
        processed_files := 0
        successful_conversions := 0
        failed_conversions := 0
        success_rate := 0
        total_time := 0
        average_time_per_file := 0
        files_per_minute := 0 } }

/-! ## The conversion environment -/

/-- What `future.result()` does for one submitted task: either it returns
the triple produced by `_convert_single_file` (which itself never raises —
it catches every exception, lines 180–190), or the future accessor raises
(for example when a worker process died). -/
inductive FutureOutcome where
  | result : Bool → String → Option String → FutureOutcome
  | raised : String → FutureOutcome
deriving DecidableEq, Repr

/-- The ambient environment of one `process_files` call: the verdict of
`FileValidator.validate_file` per path, and the behaviour of each
submitted future.  Both are functions of the file paths alone, which is
exactly the information the Python code hands them. -/
structure Env where
  validate : String → Bool × Option String
  fut : String → String → FutureOutcome

/-- Model of `ParallelProcessor._convert_single_file(input_path, output_path)`
(lines 169–190), given the behaviour of
`DocumentConverter().convert_document` as an oracle. -/
def convert_single_file (conv : String → String → PyResult Bool)
    (input_path output_path : String) : Bool × String × Option String :=
  match conv input_path output_path with
  | .ok true => (true, output_path, none)
  | .ok false => (false, output_path, some "Error en conversión")
  | .exn e => (false, output_path, some e)

/-- The environment future behaviour induced by a `convert_document` oracle
when every worker process stays healthy: `future.result()` just returns
what `_convert_single_file` computed. -/
def futOfConv (conv : String → String → PyResult Bool) :
    String → String → FutureOutcome :=
  fun i o =>
    let r := convert_single_file conv i o
    .result r.1 r.2.1 r.2.2

/-- Model of `ParallelProcessor._validate_input_files(input_files)` (lines 81–101). -/
def validate_input_files (env : Env) (input_files : List String) : List String :=
  input_files.foldl
    (fun acc file_path => if (env.validate file_path).1 then acc ++ [file_path] else acc)
    []

/-! ## The `as_completed` loop -/

/-- The loop state of `_process_parallel` (lines 114–162): the three result
lists under construction and the instance's `self.stats`. -/
structure LoopState where
  successful : List SuccessEntry
  failed : List FailEntry
  errors : List String
  stats : Stats
deriving Repr

/-- The body of the `for future in as_completed(...)` loop
(lines 134–162) for one completed future. -/
def handle_future (st : LoopState) (file_path : String) (out : FutureOutcome) : LoopState :=
  match out with
  | .result true output_path _ =>
      { st with
        successful := st.successful ++ [{ input := file_path, output := output_path }]
        stats := { st.stats with
          successful_conversions := st.stats.successful_conversions + 1 } }
  | .result false _ error_msg =>
      { st with
        failed := st.failed ++ [{ input := file_path, error := error_msg }]
        errors := st.errors ++ [file_path ++ ": " ++ pyStrOpt error_msg]
        stats := { st.stats with
          failed_conversions := st.stats.failed_conversions + 1 } }
  | .raised e =>
      { st with
        failed := st.failed ++ [{ input := file_path, error := some e }]
        errors := st.errors ++ [file_path ++ ": Error inesperado - " ++ e]
        stats := { st.stats with
          failed_conversions := st.stats.failed_conversions + 1 } }

/-- What `future.result()` does for the task submitted for `file_path`:
the future runs `_convert_single_file(file_path, output_path)` with
`output_path = _get_output_path(file_path, output_dir)` (lines 128–131). -/
def outcome_of (env : Env) (output_dir file_path : String) : FutureOutcome :=
  env.fut file_path (get_output_path file_path output_dir)

/-- Model of `ParallelProcessor._process_parallel(input_files, output_dir)`
(lines 103–167).  `order` is the completion order in which
`as_completed` yields the futures: a permutation of the submitted files.
Returns the `results` dictionary and the instance's `self.stats` after
the loop (the stats that `_calculate_final_stats` read). -/
def process_parallel (env : Env) (stats0 : Stats) (order : List String)
    (output_dir : String) : Results × Stats :=
  let final := order.foldl
    (fun st file_path => handle_future st file_path (outcome_of env output_dir file_path))
    { successful := [], failed := [], errors := [], stats := stats0 }
  ({ successful := final.successful
     failed := final.failed
     errors := final.errors
     stats := calculate_final_stats final.stats }, final.stats)

/-- The outcome of one `ParallelProcessor.process_files` call. -/
structure ProcessOutcome where
  results : Results
  proc : ParallelProcessor
  /-- The `(file, output_path)` pairs submitted to the pool, mirroring the
  construction of `future_to_file` (lines 127–131); empty when the early
  error return fires and no pool is created. -/
  submissions : List (String × String)
  /-- The `max_workers` argument given to `ProcessPoolExecutor`
  (line 125); `none` when no pool is created. -/
  pool_workers : Option Nat
deriving Repr

/-- Model of `ParallelProcessor.process_files(input_files, output_dir)`
(lines 37–79), on the non-raising path.  `t_start` and `t_end` are the two
`time.time()` readings; `order` is the completion order of the futures.
Note the order of effects, taken from the source: `total_files` and
`start_time` are set first; `_process_parallel` computes
`results['stats']` at its end; only afterwards does `process_files`
update `end_time` and `processed_files` on `self.stats`. -/
def process_files (p : ParallelProcessor) (env : Env) (input_files : List String)
    (output_dir : String) (order : List String) (t_start t_end : ℚ) : ProcessOutcome :=
  let stats0 : Stats :=
    { p.stats with total_files := input_files.length, start_time := some t_start }
  let valid_files := validate_input_files env input_files
  if valid_files = [] then
    { results := create_error_result stats0 "No hay archivos válidos para procesar"
      proc := { p with stats := stats0 }
      submissions := []
      pool_workers := none }
  else
    let rs := process_parallel env stats0 order output_dir
    let stats2 : Stats :=
      { rs.2 with end_time := some t_end, processed_files := valid_files.length }
    { results := rs.1
      proc := { p with stats := stats2 }
      submissions := valid_files.map (fun f => (f, get_output_path f output_dir))
      pool_workers := some p.max_workers }

/-! ## `DocumentConverter.convert_document` and `PDFGenerator.generate_pdf`

The third-party libraries (`python-docx`, `antiword`, `reportlab`) and the
file system are oracles.  `Doc` and `Content` are the abstract types of a
loaded document and of the extracted content dictionary. -/

/-- The oracles `DocumentConverter.convert_document` consults. -/
structure ConvEnv (Doc Content : Type) where
  /-- Oracle for `os.path.exists(input_path)` (line 52). -/
  fileExists : String → Bool
  /-- Oracle for `Path(output_path).parent.mkdir(parents=True, exist_ok=True)` (lines 56–57). -/
  mkdirParent : String → PyResult Unit
  /-- Loading a `.docx` with `python-docx` (`Document(file_path)`, line 107). -/
  loadDocx : String → PyResult Doc
  /-- Oracle for the `_load_doc_file` antiword pipeline for a `.doc` (lines 127–158),
  up to but not including the wrapping `except` clause. -/
  loadDocAntiword : String → PyResult Doc
  /-- Oracle for the body of `_extract_content` (lines 182–216), up to but not including
  the wrapping `except` clause. -/
  extract : Doc → PyResult Content
  /-- The body of `PDFGenerator.generate_pdf` (lines 70–90): building the
  `SimpleDocTemplate`, the story and `doc.build(story)`. -/
  build : Content → String → PyResult Unit

/-- Model of `file_path.lower().endswith(suffix)` for the lowercase ASCII literals
(`'.doc'`, `'.docx'`) the code compares against. -/
def lowerEndsWith (s suffix : String) : Bool :=
  suffix.toList.isSuffixOf (s.toList.map Char.toLower)

/-- Model of `DocumentConverter._load_doc_file` (lines 114–161): any failure is
re-raised as `ConversionError(f"Error procesando archivo .doc: {e}")`. -/
def load_doc_file {Doc Content : Type} (env : ConvEnv Doc Content)
    (file_path : String) : PyResult Doc :=
  match env.loadDocAntiword file_path with
  | .ok d => .ok d
  | .exn e => .exn ("Error procesando archivo .doc: " ++ e)

/-- Model of `DocumentConverter._load_document` (lines 82–112): rejects extensions
other than `.doc`/`.docx` (case-insensitively), dispatches `.doc` to
antiword and `.docx` to `python-docx`, and wraps any failure as
`ConversionError(f"No se pudo cargar el documento: {e}")`. -/
def load_document {Doc Content : Type} (env : ConvEnv Doc Content)
    (file_path : String) : PyResult Doc :=
  let body : PyResult Doc :=
    if !(lowerEndsWith file_path ".doc" || lowerEndsWith file_path ".docx") then
      .exn ("Formato no soportado: " ++ pathSuffix file_path)
    else if lowerEndsWith file_path ".doc" then
      load_doc_file env file_path
    else
      env.loadDocx file_path
  match body with
  | .ok d => .ok d
  | .exn e => .exn ("No se pudo cargar el documento: " ++ e)

/-- Model of `DocumentConverter._extract_content` (lines 163–220): wraps any failure
as `ConversionError(f"Error extrayendo contenido: {e}")`. -/
def extract_content {Doc Content : Type} (env : ConvEnv Doc Content)
    (doc : Doc) : PyResult Content :=
  match env.extract doc with
  | .ok c => .ok c
  | .exn e => .exn ("Error extrayendo contenido: " ++ e)

/-- Model of `PDFGenerator.generate_pdf(content, output_path)` (lines 59–94): when
the build succeeds it returns `True`; any exception is re-raised as
`PDFGenerationError(f"Error generando PDF: {e}", output_path)`.  There is
no path returning `False`. -/
def generate_pdf {Doc Content : Type} (env : ConvEnv Doc Content)
    (content : Content) (output_path : String) : PyResult Bool :=
  match env.build content output_path with
  | .ok _ => .ok true
  | .exn e => .exn ("Error generando PDF: " ++ e)

/-- Model of `DocumentConverter.convert_document(input_path, output_path)`
(lines 34–80).  The body checks existence, creates the output directory,
loads, extracts and generates; a falsy `success` from `generate_pdf`
would raise `PDFGenerationError` (line 73); the outer `except` re-raises
everything as `ConversionError(f"Error de conversión: {e}", input_path)`.
The per-instance `conversion_stats` bookkeeping is not modelled — no
claim mentions it. -/
def convert_document {Doc Content : Type} (env : ConvEnv Doc Content)
    (input_path output_path : String) : PyResult Bool :=
  let body : PyResult Bool :=
    if env.fileExists input_path = false then
      .exn ("Archivo de entrada no encontrado: " ++ input_path)
    else
      match env.mkdirParent output_path with
      | .exn e => .exn e
      | .ok _ =>
        match load_document env input_path with
        | .exn e => .exn e
        | .ok doc =>
          match extract_content env doc with
          | .exn e => .exn e
          | .ok content =>
            match generate_pdf env content output_path with
            | .exn e => .exn e
            | .ok success =>
              if success then .ok success
              else .exn ("No se pudo generar el PDF: " ++ output_path)
  match body with
  | .ok b => .ok b
  | .exn e => .exn ("Error de conversión: " ++ e)

/-! ## `BatchValidator.validate_batch` -/

/-- The dictionary returned by `BatchValidator.validate_batch`. -/
structure BatchResult where
  valid : List String
  invalid : List String
  errors : List String
deriving DecidableEq, Repr

/-- Constant `self.max_files_per_batch = 100` (`BatchValidator.__init__`, line 18). -/
def max_files_per_batch : Nat := 100

/-- Model of `BatchValidator.validate_batch(file_paths)` (lines 20–65), with
`FileValidator.validate_file` as an oracle.  `validate_file` catches all
its own exceptions and returns a tuple, so the `except` branch of the
per-file loop (lines 54–57) is unreachable and the oracle is total. -/
def validate_batch (validate : String → Bool × Option String)
    (file_paths : List String) : BatchResult :=
  if max_files_per_batch < file_paths.length then
    { valid := []
      invalid := file_paths
      errors := ["Demasiados archivos (" ++ toString file_paths.length ++
                 "). Máximo: " ++ toString max_files_per_batch] }
  else
    file_paths.foldl
      (fun acc file_path =>
        let r := validate file_path
        if r.1 then { acc with valid := acc.valid ++ [file_path] }
        else
          { acc with
            invalid := acc.invalid ++ [file_path]
            errors := acc.errors ++ [file_path ++ ": " ++ pyStrOpt r.2] })
      { valid := [], invalid := [], errors := [] }

/-! ## Characterising one `process_files` run

Each completed future contributes to exactly one of the three lists,
determined solely by the file's own outcome.  The following classifiers
express the contribution of a single file. -/

/-- Whether the future submitted for `file_path` reports success. -/
def is_success (env : Env) (output_dir file_path : String) : Bool :=
  match outcome_of env output_dir file_path with
  | .result true _ _ => true
  | _ => false

/-- The `results['successful']` entry contributed by `file_path`, if any. -/
def success_entry_of (env : Env) (output_dir file_path : String) : Option SuccessEntry :=
  match outcome_of env output_dir file_path with
  | .result true o _ => some { input := file_path, output := o }
  | _ => none

/-- The `results['failed']` entry contributed by `file_path`, if any. -/
def fail_entry_of (env : Env) (output_dir file_path : String) : Option FailEntry :=
  match outcome_of env output_dir file_path with
  | .result true _ _ => none
  | .result false _ m => some { input := file_path, error := m }
  | .raised e => some { input := file_path, error := some e }

/-- The `results['errors']` line contributed by `file_path`, if any. -/
def error_msg_of (env : Env) (output_dir file_path : String) : Option String :=
  match outcome_of env output_dir file_path with
  | .result true _ _ => none
  | .result false _ m => some (file_path ++ ": " ++ pyStrOpt m)
  | .raised e => some (file_path ++ ": Error inesperado - " ++ e)

theorem foldl_handle_future (env : Env) (output_dir : String) (order : List String) :
    ∀ st : LoopState,
      order.foldl (fun s f => handle_future s f (outcome_of env output_dir f)) st =
      { successful := st.successful ++ order.filterMap (success_entry_of env output_dir)
        failed := st.failed ++ order.filterMap (fail_entry_of env output_dir)
        errors := st.errors ++ order.filterMap (error_msg_of env output_dir)
        stats := { st.stats with
          successful_conversions :=
            st.stats.successful_conversions + order.countP (is_success env output_dir)
          failed_conversions :=
            st.stats.failed_conversions +
              order.countP (fun f => !(is_success env output_dir f)) } } := by
  induction order with
  | nil =>
    intro st
    obtain ⟨s1, s2, s3, s4⟩ := st
    obtain ⟨t1, t2, t3, t4, t5, t6⟩ := s4
    simp
  | cons a rest ih =>
    intro st
    rw [List.foldl_cons, ih]
    cases h : outcome_of env output_dir a with
    | result b o m =>
      cases b <;>
        simp [handle_future, success_entry_of, fail_entry_of, error_msg_of, is_success, h,
          List.filterMap_cons, List.countP_cons, List.append_assoc] <;>
        omega
    | raised e =>
      simp [handle_future, success_entry_of, fail_entry_of, error_msg_of, is_success, h,
        List.filterMap_cons, List.countP_cons, List.append_assoc]
      omega

theorem validate_input_files_eq_filter (env : Env) (input_files : List String) :
    validate_input_files env input_files =
      input_files.filter (fun f => (env.validate f).1) := by
  have h : ∀ acc : List String,
      input_files.foldl
        (fun acc file_path =>
          if (env.validate file_path).1 then acc ++ [file_path] else acc) acc =
      acc ++ input_files.filter (fun f => (env.validate f).1) := by
    induction input_files with
    | nil => intro acc; simp
    | cons a rest ih =>
      intro acc
      cases hv : (env.validate a).1 <;>
        simp [List.filter_cons, hv, ih, List.append_assoc]
  simpa using h []

/-- The `self.stats` value read by `_calculate_final_stats` at the end of
the `as_completed` loop of a non-empty run: counters incremented,
`processed_files` and `end_time` still the pre-call values. -/
def loop_stats (p : ParallelProcessor) (env : Env) (input_files : List String)
    (output_dir : String) (order : List String) (t_start : ℚ) : Stats :=
  { total_files := input_files.length
    processed_files := p.stats.processed_files
    successful_conversions :=
      p.stats.successful_conversions + order.countP (is_success env output_dir)
    failed_conversions :=
      p.stats.failed_conversions + order.countP (fun f => !(is_success env output_dir f))
    start_time := some t_start
    end_time := p.stats.end_time }

theorem process_files_of_valid_nil (p : ParallelProcessor) (env : Env)
    (input_files : List String) (output_dir : String) (order : List String)
    (t_start t_end : ℚ) (h : validate_input_files env input_files = []) :
    process_files p env input_files output_dir order t_start t_end =
      { results := create_error_result
          { p.stats with total_files := input_files.length, start_time := some t_start }
          "No hay archivos válidos para procesar"
        proc := { p with stats :=
          { p.stats with total_files := input_files.length, start_time := some t_start } }
        submissions := []
        pool_workers := none } := by
  simp [process_files, h]

theorem process_files_of_valid_ne_nil (p : ParallelProcessor) (env : Env)
    (input_files : List String) (output_dir : String) (order : List String)
    (t_start t_end : ℚ) (h : validate_input_files env input_files ≠ []) :
    process_files p env input_files output_dir order t_start t_end =
      { results :=
          { successful := order.filterMap (success_entry_of env output_dir)
            failed := order.filterMap (fail_entry_of env output_dir)
            errors := order.filterMap (error_msg_of env output_dir)
            stats := calculate_final_stats
              (loop_stats p env input_files output_dir order t_start) }
        proc := { p with stats :=
          { loop_stats p env input_files output_dir order t_start with
            processed_files := (validate_input_files env input_files).length
            end_time := some t_end } }
        submissions := (validate_input_files env input_files).map
          (fun f => (f, get_output_path f output_dir))
        pool_workers := some p.max_workers } := by
  simp only [process_files, h, if_neg, ite_false, process_parallel, foldl_handle_future]
  simp [loop_stats]

theorem countP_input_filterMap_success (env : Env) (output_dir f : String)
    (order : List String) :
    (order.filterMap (success_entry_of env output_dir)).countP (fun e => e.input == f) =
    order.countP (fun g => (g == f) && is_success env output_dir g) := by
  induction order with
  | nil => simp
  | cons a rest ih =>
    cases h : outcome_of env output_dir a with
    | result b o m =>
      cases b <;>
        simp [success_entry_of, is_success, h, List.filterMap_cons, List.countP_cons, ih]
    | raised e =>
      simp [success_entry_of, is_success, h, List.filterMap_cons, List.countP_cons, ih]

theorem countP_input_filterMap_fail (env : Env) (output_dir f : String)
    (order : List String) :
    (order.filterMap (fail_entry_of env output_dir)).countP (fun e => e.input == f) =
    order.countP (fun g => (g == f) && !(is_success env output_dir g)) := by
  induction order with
  | nil => simp
  | cons a rest ih =>
    cases h : outcome_of env output_dir a with
    | result b o m =>
      cases b <;>
        simp [fail_entry_of, is_success, h, List.filterMap_cons, List.countP_cons, ih]
    | raised e =>
      simp [fail_entry_of, is_success, h, List.filterMap_cons, List.countP_cons, ih]

theorem countP_beq_and_split (p q : String → Bool) (l : List String) :
    l.countP (fun g => p g && q g) + l.countP (fun g => p g && !(q g)) = l.countP p := by
  induction l with
  | nil => simp
  | cons a rest ih =>
    cases hp : p a <;> cases hq : q a <;>
      simp [List.countP_cons, hp, hq] <;> omega

theorem countP_beq_and_eq_ite (q : String → Bool) (f : String) (l : List String) :
    l.countP (fun g => (g == f) && q g) = if q f then l.count f else 0 := by
  induction l with
  | nil => simp
  | cons a rest ih =>
    by_cases h : a = f
    · subst h
      cases hq : q a <;> simp [List.countP_cons, List.count_cons, hq, ih]
    · have hb : (a == f) = false := by simp [h]
      simp [List.countP_cons, List.count_cons, hb, h, ih]

theorem success_entry_of_input {env : Env} {output_dir g : String} {e : SuccessEntry}
    (h : success_entry_of env output_dir g = some e) : e.input = g := by
  cases ho : outcome_of env output_dir g with
  | result b o m =>
    cases b
    · simp [success_entry_of, ho] at h
    · simp [success_entry_of, ho] at h
      simp [← h]
  | raised s => simp [success_entry_of, ho] at h

theorem success_entry_of_is_success {env : Env} {output_dir g : String} {e : SuccessEntry}
    (h : success_entry_of env output_dir g = some e) :
    is_success env output_dir g = true := by
  cases ho : outcome_of env output_dir g with
  | result b o m => cases b <;> simp [success_entry_of, is_success, ho] at h ⊢
  | raised s => simp [success_entry_of, ho] at h

theorem success_entry_of_isSome_of_is_success {env : Env} {output_dir g : String}
    (h : is_success env output_dir g = true) :
    ∃ e, success_entry_of env output_dir g = some e ∧ e.input = g := by
  cases ho : outcome_of env output_dir g with
  | result b o m =>
    cases b
    · simp [is_success, ho] at h
    · exact ⟨{ input := g, output := o }, by simp [success_entry_of, ho], rfl⟩
  | raised s => simp [is_success, ho] at h

theorem fail_entry_of_input {env : Env} {output_dir g : String} {e : FailEntry}
    (h : fail_entry_of env output_dir g = some e) : e.input = g := by
  cases ho : outcome_of env output_dir g with
  | result b o m =>
    cases b
    · simp [fail_entry_of, ho] at h
      simp [← h]
    · simp [fail_entry_of, ho] at h
  | raised s =>
    simp [fail_entry_of, ho] at h
    simp [← h]

theorem fail_entry_of_not_is_success {env : Env} {output_dir g : String} {e : FailEntry}
    (h : fail_entry_of env output_dir g = some e) :
    is_success env output_dir g = false := by
  cases ho : outcome_of env output_dir g with
  | result b o m => cases b <;> simp [fail_entry_of, is_success, ho] at h ⊢
  | raised s => simp [is_success, ho]

theorem fail_entry_of_isSome_of_not_is_success {env : Env} {output_dir g : String}
    (h : is_success env output_dir g = false) :
    ∃ e, fail_entry_of env output_dir g = some e ∧ e.input = g := by
  cases ho : outcome_of env output_dir g with
  | result b o m =>
    cases b
    · exact ⟨{ input := g, error := m }, by simp [fail_entry_of, ho], rfl⟩
    · simp [is_success, ho] at h
  | raised s => exact ⟨{ input := g, error := some s }, by simp [fail_entry_of, ho], rfl⟩

/-- The `results` dictionary returned by one `process_files` call. -/
def results_of (p : ParallelProcessor) (env : Env) (input_files : List String)
    (output_dir : String) (order : List String) (t_start t_end : ℚ) : Results :=
  (process_files p env input_files output_dir order t_start t_end).results

/-- C1: For every call to `ParallelProcessor.process_files` that completes
without raising, each input file that passes validation appears in exactly one
of the returned `results['successful']` (as an entry whose `'input'` is that
file) or `results['failed']` lists, and every entry of those two lists
corresponds to some validated input file; input files that fail validation
appear in neither list.  Formally: for every file the number of entries
naming it in `successful` plus the number in `failed` equals its multiplicity
among the validated files (so exactly one when the input list has no
duplicates), every entry's `input` is a validated file, and a file rejected by
validation contributes no entry. -/
theorem claim_C1_partition (p : ParallelProcessor) (env : Env)
    (input_files : List String) (output_dir : String) (order : List String)
    (t_start t_end : ℚ)
    (horder : order.Perm (validate_input_files env input_files)) :
    (∀ f : String,
        (results_of p env input_files output_dir order t_start t_end).successful.countP
            (fun e => e.input == f) +
          (results_of p env input_files output_dir order t_start t_end).failed.countP
            (fun e => e.input == f) =
          (validate_input_files env input_files).count f) ∧
    (∀ e ∈ (results_of p env input_files output_dir order t_start t_end).successful,
        e.input ∈ validate_input_files env input_files) ∧
    (∀ e ∈ (results_of p env input_files output_dir order t_start t_end).failed,
        e.input ∈ validate_input_files env input_files) ∧
    (∀ f ∈ input_files, (env.validate f).1 = false →
        (results_of p env input_files output_dir order t_start t_end).successful.countP
            (fun e => e.input == f) = 0 ∧
          (results_of p env input_files output_dir order t_start t_end).failed.countP
            (fun e => e.input == f) = 0) ∧
    (input_files.Nodup → ∀ f ∈ input_files, (env.validate f).1 = true →
        (results_of p env input_files output_dir order t_start t_end).successful.countP
            (fun e => e.input == f) +
          (results_of p env input_files output_dir order t_start t_end).failed.countP
            (fun e => e.input == f) = 1) := by
  have key : ∀ f : String,
      (results_of p env input_files output_dir order t_start t_end).successful.countP
          (fun e => e.input == f) +
        (results_of p env input_files output_dir order t_start t_end).failed.countP
          (fun e => e.input == f) =
        (validate_input_files env input_files).count f := by
    intro f
    by_cases hnil : validate_input_files env input_files = []
    · have hord : order = [] := (hnil ▸ horder).eq_nil
      subst hord
      rw [results_of, process_files_of_valid_nil _ _ _ _ _ _ _ hnil, hnil]
      simp [create_error_result]
    · rw [results_of, process_files_of_valid_ne_nil _ _ _ _ _ _ _ hnil]
      have h1 := countP_input_filterMap_success env output_dir f order
      have h2 := countP_input_filterMap_fail env output_dir f order
      have h3 := countP_beq_and_split (fun g => g == f) (is_success env output_dir) order
      have h4 : order.countP (fun g => g == f) = order.count f :=
        (List.count_eq_countP f order).symm
      have h5 := horder.count_eq f
      simp only at h1 h2 ⊢
      rw [h1, h2, h3, h4, h5]
  refine ⟨key, ?_, ?_, ?_, ?_⟩
  · intro e he
    by_cases hnil : validate_input_files env input_files = []
    · rw [results_of, process_files_of_valid_nil _ _ _ _ _ _ _ hnil] at he
      simp [create_error_result] at he
    · rw [results_of, process_files_of_valid_ne_nil _ _ _ _ _ _ _ hnil] at he
      simp only [List.mem_filterMap] at he
      obtain ⟨g, hg, hsome⟩ := he
      rw [success_entry_of_input hsome]
      exact horder.mem_iff.mp hg
  · intro e he
    by_cases hnil : validate_input_files env input_files = []
    · rw [results_of, process_files_of_valid_nil _ _ _ _ _ _ _ hnil] at he
      simp [create_error_result] at he
    · rw [results_of, process_files_of_valid_ne_nil _ _ _ _ _ _ _ hnil] at he
      simp only [List.mem_filterMap] at he
      obtain ⟨g, hg, hsome⟩ := he
      rw [fail_entry_of_input hsome]
      exact horder.mem_iff.mp hg
  · intro f _ hv
    have hnot : f ∉ validate_input_files env input_files := by
      rw [validate_input_files_eq_filter]
      simp [List.mem_filter, hv]
    have hz : (validate_input_files env input_files).count f = 0 :=
      List.count_eq_zero.mpr hnot
    have := key f
    rw [hz] at this
    omega
  · intro hnd f hf hv
    have hmem : f ∈ validate_input_files env input_files := by
      rw [validate_input_files_eq_filter]
      exact List.mem_filter.mpr ⟨hf, hv⟩
    have hone : (validate_input_files env input_files).count f = 1 := by
      refine List.count_eq_one_of_mem ?_ hmem
      rw [validate_input_files_eq_filter]
      exact hnd.filter _
    rw [key f, hone]

/-- A concrete environment: `a.docx` is the only valid file and every
conversion succeeds. -/
def envC1 : Env :=
  { validate := fun f => (f == "a.docx", none)
    fut := fun _ o => .result true o none }

theorem claim_C1_partition_witness :
    (["a.docx"] : List String).Perm (validate_input_files envC1 ["a.docx", "notes.txt"]) ∧
    ((∀ f : String,
        (results_of (mkParallelProcessor defaultConfig none) envC1 ["a.docx", "notes.txt"]
              "out" ["a.docx"] 0 1).successful.countP (fun e => e.input == f) +
          (results_of (mkParallelProcessor defaultConfig none) envC1 ["a.docx", "notes.txt"]
              "out" ["a.docx"] 0 1).failed.countP (fun e => e.input == f) =
          (validate_input_files envC1 ["a.docx", "notes.txt"]).count f) ∧
      (∀ e ∈ (results_of (mkParallelProcessor defaultConfig none) envC1
            ["a.docx", "notes.txt"] "out" ["a.docx"] 0 1).successful,
          e.input ∈ validate_input_files envC1 ["a.docx", "notes.txt"]) ∧
      (∀ e ∈ (results_of (mkParallelProcessor defaultConfig none) envC1
            ["a.docx", "notes.txt"] "out" ["a.docx"] 0 1).failed,
          e.input ∈ validate_input_files envC1 ["a.docx", "notes.txt"]) ∧
      (∀ f ∈ ["a.docx", "notes.txt"], (envC1.validate f).1 = false →
          (results_of (mkParallelProcessor defaultConfig none) envC1 ["a.docx", "notes.txt"]
              "out" ["a.docx"] 0 1).successful.countP (fun e => e.input == f) = 0 ∧
            (results_of (mkParallelProcessor defaultConfig none) envC1 ["a.docx", "notes.txt"]
              "out" ["a.docx"] 0 1).failed.countP (fun e => e.input == f) = 0) ∧
      ((["a.docx", "notes.txt"] : List String).Nodup →
        ∀ f ∈ ["a.docx", "notes.txt"], (envC1.validate f).1 = true →
          (results_of (mkParallelProcessor defaultConfig none) envC1 ["a.docx", "notes.txt"]
              "out" ["a.docx"] 0 1).successful.countP (fun e => e.input == f) +
            (results_of (mkParallelProcessor defaultConfig none) envC1 ["a.docx", "notes.txt"]
              "out" ["a.docx"] 0 1).failed.countP (fun e => e.input == f) = 1)) :=
  ⟨by decide,
   claim_C1_partition (mkParallelProcessor defaultConfig none) envC1
     ["a.docx", "notes.txt"] "out" ["a.docx"] 0 1 (by decide)⟩

/-- The processor state (its `self.stats`) after one `process_files` call. -/
def proc_of (p : ParallelProcessor) (env : Env) (input_files : List String)
    (output_dir : String) (order : List String) (t_start t_end : ℚ) : ParallelProcessor :=
  (process_files p env input_files output_dir order t_start t_end).proc

theorem countP_add_countP_not (q : String → Bool) (l : List String) :
    l.countP q + l.countP (fun a => !(q a)) = l.length := by
  induction l with
  | nil => simp
  | cons a rest ih =>
    cases hq : q a <;> simp [List.countP_cons, hq] <;> omega

/-- A concrete environment for C2: every file validates and every
conversion succeeds. -/
def envC2 : Env :=
  { validate := fun _ => (true, none)
    fut := fun _ o => .result true o none }

/-- C2 counterexample: On a freshly constructed processor converting
the single validated file `a.docx` successfully, the returned
`results['stats']` has `successful_conversions = 1` and
`failed_conversions = 0` but `processed_files = 0`: `_calculate_final_stats`
runs at the end of `_process_parallel`, before `process_files` stores
`processed_files = len(valid_files)` into `self.stats`, so the claimed
identity `successful + failed = processed` fails in the returned stats. -/
theorem claim_C2_counterexample :
    ¬ ((results_of (mkParallelProcessor defaultConfig none) envC2 ["a.docx"] "out"
            ["a.docx"] 0 1).stats.successful_conversions +
          (results_of (mkParallelProcessor defaultConfig none) envC2 ["a.docx"] "out"
            ["a.docx"] 0 1).stats.failed_conversions =
        (results_of (mkParallelProcessor defaultConfig none) envC2 ["a.docx"] "out"
            ["a.docx"] 0 1).stats.processed_files) := by
  decide

/-- C2 amended: For a `process_files` call on a freshly constructed
(or freshly reset) processor with at least one validated file:
the returned `results['stats']` satisfies
`successful_conversions + failed_conversions = number of validated files`,
but its `processed_files` field is the stale pre-call value `0` and its
`success_rate` is computed from that stale value, hence `0`; the
aggregation identity `successful + failed = processed_files` holds not in
the returned stats but on the processor's `self.stats` after the call.
(On a second call without `reset_stats` the identity fails again, because
the per-outcome counters accumulate while `processed_files` is
overwritten — the counterexample forces dropping that clause.) -/
theorem claim_C2_stats_amended (p : ParallelProcessor) (env : Env)
    (input_files : List String) (output_dir : String) (order : List String)
    (t_start t_end : ℚ)
    (hp : p.stats = freshStats)
    (horder : order.Perm (validate_input_files env input_files))
    (hne : validate_input_files env input_files ≠ []) :
    (results_of p env input_files output_dir order t_start t_end).stats.successful_conversions +
        (results_of p env input_files output_dir order t_start t_end).stats.failed_conversions =
        (validate_input_files env input_files).length ∧
    (results_of p env input_files output_dir order t_start t_end).stats.processed_files = 0 ∧
    (results_of p env input_files output_dir order t_start t_end).stats.success_rate = 0 ∧
    (results_of p env input_files output_dir order t_start t_end).stats.total_files =
        input_files.length ∧
    (proc_of p env input_files output_dir order t_start t_end).stats.processed_files =
        (validate_input_files env input_files).length ∧
    (proc_of p env input_files output_dir order t_start t_end).stats.successful_conversions +
        (proc_of p env input_files output_dir order t_start t_end).stats.failed_conversions =
        (proc_of p env input_files output_dir order t_start t_end).stats.processed_files := by
  rw [results_of, proc_of, process_files_of_valid_ne_nil _ _ _ _ _ _ _ hne]
  have hlen : order.length = (validate_input_files env input_files).length :=
    horder.length_eq
  have hsum := countP_add_countP_not (is_success env output_dir) order
  simp [calculate_final_stats, loop_stats, hp, freshStats]
  omega

theorem claim_C2_stats_amended_witness :
    (mkParallelProcessor defaultConfig none).stats = freshStats ∧
    (["a.docx"] : List String).Perm (validate_input_files envC2 ["a.docx"]) ∧
    validate_input_files envC2 ["a.docx"] ≠ [] ∧
    ((results_of (mkParallelProcessor defaultConfig none) envC2 ["a.docx"] "out"
            ["a.docx"] 0 1).stats.successful_conversions +
          (results_of (mkParallelProcessor defaultConfig none) envC2 ["a.docx"] "out"
            ["a.docx"] 0 1).stats.failed_conversions =
          (validate_input_files envC2 ["a.docx"]).length ∧
      (results_of (mkParallelProcessor defaultConfig none) envC2 ["a.docx"] "out"
          ["a.docx"] 0 1).stats.processed_files = 0 ∧
      (results_of (mkParallelProcessor defaultConfig none) envC2 ["a.docx"] "out"
          ["a.docx"] 0 1).stats.success_rate = 0 ∧
      (results_of (mkParallelProcessor defaultConfig none) envC2 ["a.docx"] "out"
          ["a.docx"] 0 1).stats.total_files = (["a.docx"] : List String).length ∧
      (proc_of (mkParallelProcessor defaultConfig none) envC2 ["a.docx"] "out"
          ["a.docx"] 0 1).stats.processed_files =
          (validate_input_files envC2 ["a.docx"]).length ∧
      (proc_of (mkParallelProcessor defaultConfig none) envC2 ["a.docx"] "out"
            ["a.docx"] 0 1).stats.successful_conversions +
          (proc_of (mkParallelProcessor defaultConfig none) envC2 ["a.docx"] "out"
            ["a.docx"] 0 1).stats.failed_conversions =
          (proc_of (mkParallelProcessor defaultConfig none) envC2 ["a.docx"] "out"
            ["a.docx"] 0 1).stats.processed_files) :=
  ⟨rfl, by decide, by decide,
   claim_C2_stats_amended (mkParallelProcessor defaultConfig none) envC2 ["a.docx"] "out"
     ["a.docx"] 0 1 rfl (by decide) (by decide)⟩

/-- C3: `process_files` is order-independent over its input list: for a
permutation of the input list (with the completion orders permutations of
the respective validated lists, as `as_completed` guarantees), the two calls
produce the same entries of `results['successful']` and `results['failed']`
up to permutation (hence the same sets), and equal counters `total_files`,
`processed_files`, `successful_conversions` and `failed_conversions`;
no per-file outcome depends on the position of the file in the input list. -/
theorem claim_C3_order_independent (p : ParallelProcessor) (env : Env)
    (input1 input2 : List String) (output_dir : String)
    (order1 order2 : List String) (ts1 te1 ts2 te2 : ℚ)
    (hperm : input2.Perm input1)
    (ho1 : order1.Perm (validate_input_files env input1))
    (ho2 : order2.Perm (validate_input_files env input2)) :
    (results_of p env input1 output_dir order1 ts1 te1).successful.Perm
        (results_of p env input2 output_dir order2 ts2 te2).successful ∧
    (results_of p env input1 output_dir order1 ts1 te1).failed.Perm
        (results_of p env input2 output_dir order2 ts2 te2).failed ∧
    (results_of p env input1 output_dir order1 ts1 te1).stats.total_files =
        (results_of p env input2 output_dir order2 ts2 te2).stats.total_files ∧
    (results_of p env input1 output_dir order1 ts1 te1).stats.processed_files =
        (results_of p env input2 output_dir order2 ts2 te2).stats.processed_files ∧
    (results_of p env input1 output_dir order1 ts1 te1).stats.successful_conversions =
        (results_of p env input2 output_dir order2 ts2 te2).stats.successful_conversions ∧
    (results_of p env input1 output_dir order1 ts1 te1).stats.failed_conversions =
        (results_of p env input2 output_dir order2 ts2 te2).stats.failed_conversions := by
  have hvperm : (validate_input_files env input2).Perm (validate_input_files env input1) := by
    rw [validate_input_files_eq_filter, validate_input_files_eq_filter]
    exact hperm.filter _
  have hlen : input2.length = input1.length := hperm.length_eq
  by_cases hnil : validate_input_files env input1 = []
  · have hnil2 : validate_input_files env input2 = [] := (hnil ▸ hvperm).eq_nil
    rw [results_of, results_of, process_files_of_valid_nil _ _ _ _ _ _ _ hnil,
      process_files_of_valid_nil _ _ _ _ _ _ _ hnil2]
    simp [create_error_result, hlen]
  · have hnil2 : validate_input_files env input2 ≠ [] := by
      intro h
      exact hnil (h ▸ hvperm.symm).eq_nil
    have horder : order2.Perm order1 := ho2.trans (hvperm.trans ho1.symm)
    rw [results_of, results_of, process_files_of_valid_ne_nil _ _ _ _ _ _ _ hnil,
      process_files_of_valid_ne_nil _ _ _ _ _ _ _ hnil2]
    refine ⟨(horder.filterMap _).symm, (horder.filterMap _).symm, ?_, ?_, ?_, ?_⟩ <;>
      simp [calculate_final_stats, loop_stats, hlen, horder.countP_eq]

theorem claim_C3_order_independent_witness :
    (["b.docx", "a.docx"] : List String).Perm ["a.docx", "b.docx"] ∧
    (["a.docx", "b.docx"] : List String).Perm
        (validate_input_files envC2 ["a.docx", "b.docx"]) ∧
    (["b.docx", "a.docx"] : List String).Perm
        (validate_input_files envC2 ["b.docx", "a.docx"]) ∧
    ((results_of (mkParallelProcessor defaultConfig none) envC2 ["a.docx", "b.docx"] "out"
          ["a.docx", "b.docx"] 0 1).successful.Perm
        (results_of (mkParallelProcessor defaultConfig none) envC2 ["b.docx", "a.docx"] "out"
          ["b.docx", "a.docx"] 2 3).successful ∧
      (results_of (mkParallelProcessor defaultConfig none) envC2 ["a.docx", "b.docx"] "out"
          ["a.docx", "b.docx"] 0 1).failed.Perm
        (results_of (mkParallelProcessor defaultConfig none) envC2 ["b.docx", "a.docx"] "out"
          ["b.docx", "a.docx"] 2 3).failed ∧
      (results_of (mkParallelProcessor defaultConfig none) envC2 ["a.docx", "b.docx"] "out"
          ["a.docx", "b.docx"] 0 1).stats.total_files =
        (results_of (mkParallelProcessor defaultConfig none) envC2 ["b.docx", "a.docx"] "out"
          ["b.docx", "a.docx"] 2 3).stats.total_files ∧
      (results_of (mkParallelProcessor defaultConfig none) envC2 ["a.docx", "b.docx"] "out"
          ["a.docx", "b.docx"] 0 1).stats.processed_files =
        (results_of (mkParallelProcessor defaultConfig none) envC2 ["b.docx", "a.docx"] "out"
          ["b.docx", "a.docx"] 2 3).stats.processed_files ∧
      (results_of (mkParallelProcessor defaultConfig none) envC2 ["a.docx", "b.docx"] "out"
          ["a.docx", "b.docx"] 0 1).stats.successful_conversions =
        (results_of (mkParallelProcessor defaultConfig none) envC2 ["b.docx", "a.docx"] "out"
          ["b.docx", "a.docx"] 2 3).stats.successful_conversions ∧
      (results_of (mkParallelProcessor defaultConfig none) envC2 ["a.docx", "b.docx"] "out"
          ["a.docx", "b.docx"] 0 1).stats.failed_conversions =
        (results_of (mkParallelProcessor defaultConfig none) envC2 ["b.docx", "a.docx"] "out"
          ["b.docx", "a.docx"] 2 3).stats.failed_conversions) :=
  ⟨by decide, by decide, by decide,
   claim_C3_order_independent (mkParallelProcessor defaultConfig none) envC2
     ["a.docx", "b.docx"] ["b.docx", "a.docx"] "out" ["a.docx", "b.docx"]
     ["b.docx", "a.docx"] 0 1 2 3 (by decide) (by decide) (by decide)⟩

/-- The `(file, output_path)` pairs submitted to the pool during one
`process_files` call (the tasks handed to `_convert_single_file`). -/
def submissions_of (p : ParallelProcessor) (env : Env) (input_files : List String)
    (output_dir : String) (order : List String) (t_start t_end : ℚ) :
    List (String × String) :=
  (process_files p env input_files output_dir order t_start t_end).submissions

/-- C4: `process_files` performs no retries: during one call, each
validated input file is submitted for conversion exactly once (one
`_convert_single_file` task per file, always with the same single output
path), and a file whose conversion fails or raises is recorded exactly once
in `results['failed']`, never in `results['successful']`, and is never
converted again within that call. -/
theorem claim_C4_no_retries (p : ParallelProcessor) (env : Env)
    (input_files : List String) (output_dir : String) (order : List String)
    (t_start t_end : ℚ)
    (horder : order.Perm (validate_input_files env input_files))
    (hnd : input_files.Nodup) (f : String) (hf : f ∈ input_files)
    (hv : (env.validate f).1 = true) :
    (submissions_of p env input_files output_dir order t_start t_end).countP
        (fun t => t.1 == f) = 1 ∧
    (∀ t ∈ submissions_of p env input_files output_dir order t_start t_end,
        t.1 = f → t.2 = get_output_path f output_dir) ∧
    (is_success env output_dir f = false →
      (results_of p env input_files output_dir order t_start t_end).failed.countP
          (fun e => e.input == f) = 1 ∧
        (results_of p env input_files output_dir order t_start t_end).successful.countP
          (fun e => e.input == f) = 0) := by
  have hmem : f ∈ validate_input_files env input_files := by
    rw [validate_input_files_eq_filter]
    exact List.mem_filter.mpr ⟨hf, hv⟩
  have hnnil : validate_input_files env input_files ≠ [] := List.ne_nil_of_mem hmem
  have hone : (validate_input_files env input_files).count f = 1 := by
    refine List.count_eq_one_of_mem ?_ hmem
    rw [validate_input_files_eq_filter]
    exact hnd.filter _
  have hcount_order : order.count f = 1 := (horder.count_eq f).trans hone
  rw [submissions_of, results_of, process_files_of_valid_ne_nil _ _ _ _ _ _ _ hnnil]
  refine ⟨?_, ?_, ?_⟩
  · rw [List.countP_map]
    have : ((fun t : String × String => t.1 == f) ∘
        fun g => (g, get_output_path g output_dir)) = fun g => g == f := rfl
    rw [this, ← List.count_eq_countP, hone]
  · intro t ht hfst
    simp only [List.mem_map] at ht
    obtain ⟨g, _, hg⟩ := ht
    have : g = f := by
      have := congrArg Prod.fst hg
      simpa [hfst] using this
    subst this
    exact (congrArg Prod.snd hg).symm
  · intro hfail
    constructor
    · rw [countP_input_filterMap_fail, countP_beq_and_eq_ite]
      simp [hfail, hcount_order]
    · rw [countP_input_filterMap_success, countP_beq_and_eq_ite]
      simp [hfail]

/-- A concrete environment for C4: every file validates and every
conversion fails. -/
def envC4 : Env :=
  { validate := fun _ => (true, none)
    fut := fun _ o => .result false o (some "boom") }

theorem claim_C4_no_retries_witness :
    (["a.docx"] : List String).Perm (validate_input_files envC4 ["a.docx"]) ∧
    (["a.docx"] : List String).Nodup ∧
    ("a.docx" : String) ∈ (["a.docx"] : List String) ∧
    (envC4.validate "a.docx").1 = true ∧
    ((submissions_of (mkParallelProcessor defaultConfig none) envC4 ["a.docx"] "out"
          ["a.docx"] 0 1).countP (fun t => t.1 == "a.docx") = 1 ∧
      (∀ t ∈ submissions_of (mkParallelProcessor defaultConfig none) envC4 ["a.docx"] "out"
            ["a.docx"] 0 1,
          t.1 = "a.docx" → t.2 = get_output_path "a.docx" "out") ∧
      (is_success envC4 "out" "a.docx" = false →
        (results_of (mkParallelProcessor defaultConfig none) envC4 ["a.docx"] "out"
              ["a.docx"] 0 1).failed.countP (fun e => e.input == "a.docx") = 1 ∧
          (results_of (mkParallelProcessor defaultConfig none) envC4 ["a.docx"] "out"
              ["a.docx"] 0 1).successful.countP (fun e => e.input == "a.docx") = 0)) :=
  ⟨by decide, by decide, by decide, by decide,
   claim_C4_no_retries (mkParallelProcessor defaultConfig none) envC4 ["a.docx"] "out"
     ["a.docx"] 0 1 (by decide) (by decide) "a.docx" (by decide) (by decide)⟩

/-- C5 counterexample: The claim says `max_workers` is the constructor
argument whenever one is given.  But `__init__` computes
`max_workers or config.max_workers`, and Python's `or` treats `0` as falsy:
`ParallelProcessor(max_workers=0)` gets `config.max_workers` (4 by default),
not `0`. -/
theorem claim_C5_counterexample :
    ¬ ((mkParallelProcessor defaultConfig (some 0)).max_workers = 0) := by
  decide

/-- C5 amended: The worker pool is fixed-size and bounded:
`max_workers` is the constructor argument when given and nonzero, and
`config.max_workers` when the argument is omitted or `0` (falsy); the
process pool is created with exactly `self.max_workers`; and
`get_optimal_worker_count` returns `min(2, cpu_count)` for at most 5 files,
`min(4, cpu_count)` for 6–20 files, and `min(self.max_workers, cpu_count)`
otherwise, so it never exceeds the CPU count. -/
theorem claim_C5_worker_pool_amended :
    (∀ (cfg : Config) (m : Nat), m ≠ 0 →
        (mkParallelProcessor cfg (some m)).max_workers = m) ∧
    (∀ cfg : Config, (mkParallelProcessor cfg none).max_workers = cfg.max_workers) ∧
    (∀ cfg : Config, (mkParallelProcessor cfg (some 0)).max_workers = cfg.max_workers) ∧
    (∀ (p : ParallelProcessor) (env : Env) (input_files : List String)
        (output_dir : String) (order : List String) (ts te : ℚ),
        validate_input_files env input_files ≠ [] →
        (process_files p env input_files output_dir order ts te).pool_workers =
          some p.max_workers) ∧
    (∀ (p : ParallelProcessor) (cpu_count file_count : Nat),
        get_optimal_worker_count p cpu_count file_count =
          (if file_count ≤ 5 then min 2 cpu_count
           else if file_count ≤ 20 then min 4 cpu_count
           else min p.max_workers cpu_count)) ∧
    (∀ (p : ParallelProcessor) (cpu_count file_count : Nat),
        get_optimal_worker_count p cpu_count file_count ≤ cpu_count) := by
  refine ⟨?_, ?_, ?_, ?_, ?_, ?_⟩
  · intro cfg m hm
    simp [mkParallelProcessor, hm]
  · intro cfg
    simp [mkParallelProcessor]
  · intro cfg
    simp [mkParallelProcessor]
  · intro p env input_files output_dir order ts te hne
    rw [process_files_of_valid_ne_nil _ _ _ _ _ _ _ hne]
  · intro p cpu_count file_count
    rfl
  · intro p cpu_count file_count
    unfold get_optimal_worker_count
    split
    · exact Nat.min_le_right _ _
    · split
      · exact Nat.min_le_right _ _
      · exact Nat.min_le_right _ _

theorem claim_C5_worker_pool_amended_witness :
    ((3 : Nat) ≠ 0 ∧ (mkParallelProcessor defaultConfig (some 3)).max_workers = 3) ∧
    (validate_input_files envC2 ["a.docx"] ≠ [] ∧
      (process_files (mkParallelProcessor defaultConfig none) envC2 ["a.docx"] "out"
          ["a.docx"] 0 1).pool_workers =
        some (mkParallelProcessor defaultConfig none).max_workers) :=
  ⟨⟨by decide, claim_C5_worker_pool_amended.1 defaultConfig 3 (by decide)⟩,
   ⟨by decide,
    claim_C5_worker_pool_amended.2.2.2.1 (mkParallelProcessor defaultConfig none) envC2
      ["a.docx"] "out" ["a.docx"] 0 1 (by decide)⟩⟩

theorem mem_successful_iff_is_success (p : ParallelProcessor) (env : Env)
    (input_files : List String) (output_dir : String) (order : List String)
    (t_start t_end : ℚ) (f : String)
    (horder : order.Perm (validate_input_files env input_files))
    (hmem : f ∈ validate_input_files env input_files) :
    (∃ e ∈ (results_of p env input_files output_dir order t_start t_end).successful,
        e.input = f) ↔ is_success env output_dir f = true := by
  have hnnil : validate_input_files env input_files ≠ [] := List.ne_nil_of_mem hmem
  rw [results_of, process_files_of_valid_ne_nil _ _ _ _ _ _ _ hnnil]
  constructor
  · rintro ⟨e, he, hin⟩
    simp only [List.mem_filterMap] at he
    obtain ⟨g, _, hsome⟩ := he
    have hg : g = f := (success_entry_of_input hsome) ▸ hin
    exact success_entry_of_is_success (hg ▸ hsome)
  · intro hs
    obtain ⟨e, hsome, hin⟩ := success_entry_of_isSome_of_is_success hs
    exact ⟨e, List.mem_filterMap.mpr ⟨f, horder.mem_iff.mpr hmem, hsome⟩, hin⟩

theorem mem_failed_iff_not_is_success (p : ParallelProcessor) (env : Env)
    (input_files : List String) (output_dir : String) (order : List String)
    (t_start t_end : ℚ) (f : String)
    (horder : order.Perm (validate_input_files env input_files))
    (hmem : f ∈ validate_input_files env input_files) :
    (∃ e ∈ (results_of p env input_files output_dir order t_start t_end).failed,
        e.input = f) ↔ is_success env output_dir f = false := by
  have hnnil : validate_input_files env input_files ≠ [] := List.ne_nil_of_mem hmem
  rw [results_of, process_files_of_valid_ne_nil _ _ _ _ _ _ _ hnnil]
  constructor
  · rintro ⟨e, he, hin⟩
    simp only [List.mem_filterMap] at he
    obtain ⟨g, _, hsome⟩ := he
    have hg : g = f := (fail_entry_of_input hsome) ▸ hin
    exact fail_entry_of_not_is_success (hg ▸ hsome)
  · intro hs
    obtain ⟨e, hsome, hin⟩ := fail_entry_of_isSome_of_not_is_success hs
    exact ⟨e, List.mem_filterMap.mpr ⟨f, horder.mem_iff.mpr hmem, hsome⟩, hin⟩

theorem successful_entry_eq_of_input (p : ParallelProcessor) (env : Env)
    (input_files : List String) (output_dir : String) (order : List String)
    (t_start t_end : ℚ) (f : String) {e : SuccessEntry}
    (hnnil : validate_input_files env input_files ≠ [])
    (he : e ∈ (results_of p env input_files output_dir order t_start t_end).successful)
    (hin : e.input = f) :
    success_entry_of env output_dir f = some e := by
  rw [results_of, process_files_of_valid_ne_nil _ _ _ _ _ _ _ hnnil] at he
  simp only [List.mem_filterMap] at he
  obtain ⟨g, _, hsome⟩ := he
  have hg : g = f := (success_entry_of_input hsome) ▸ hin
  exact hg ▸ hsome

/-- C6: Per-file conversion is independent of the rest of the batch
(noninterference): for any two `process_files` calls whose input lists both
contain a validated file `f` and which use the same output directory (and
the same external environment — file system and converter behaviour), `f`
is classified as successful in one call iff it is in the other, classified
as failed in one iff in the other, and the recorded output path for `f` is
the same in both calls; the processors, the other batch members, the
completion orders and the timings may all differ. -/
theorem claim_C6_noninterference (p1 p2 : ParallelProcessor) (env : Env)
    (input1 input2 : List String) (output_dir : String)
    (order1 order2 : List String) (ts1 te1 ts2 te2 : ℚ) (f : String)
    (ho1 : order1.Perm (validate_input_files env input1))
    (ho2 : order2.Perm (validate_input_files env input2))
    (hf1 : f ∈ input1) (hf2 : f ∈ input2)
    (hv : (env.validate f).1 = true) :
    ((∃ e ∈ (results_of p1 env input1 output_dir order1 ts1 te1).successful, e.input = f) ↔
      (∃ e ∈ (results_of p2 env input2 output_dir order2 ts2 te2).successful, e.input = f)) ∧
    ((∃ e ∈ (results_of p1 env input1 output_dir order1 ts1 te1).failed, e.input = f) ↔
      (∃ e ∈ (results_of p2 env input2 output_dir order2 ts2 te2).failed, e.input = f)) ∧
    (∀ e1 ∈ (results_of p1 env input1 output_dir order1 ts1 te1).successful,
      ∀ e2 ∈ (results_of p2 env input2 output_dir order2 ts2 te2).successful,
        e1.input = f → e2.input = f → e1.output = e2.output) := by
  have hmem1 : f ∈ validate_input_files env input1 := by
    rw [validate_input_files_eq_filter]
    exact List.mem_filter.mpr ⟨hf1, hv⟩
  have hmem2 : f ∈ validate_input_files env input2 := by
    rw [validate_input_files_eq_filter]
    exact List.mem_filter.mpr ⟨hf2, hv⟩
  refine ⟨?_, ?_, ?_⟩
  · rw [mem_successful_iff_is_success p1 env input1 output_dir order1 ts1 te1 f ho1 hmem1,
      mem_successful_iff_is_success p2 env input2 output_dir order2 ts2 te2 f ho2 hmem2]
  · rw [mem_failed_iff_not_is_success p1 env input1 output_dir order1 ts1 te1 f ho1 hmem1,
      mem_failed_iff_not_is_success p2 env input2 output_dir order2 ts2 te2 f ho2 hmem2]
  · intro e1 he1 e2 he2 hin1 hin2
    have h1 := successful_entry_eq_of_input p1 env input1 output_dir order1 ts1 te1 f
      (List.ne_nil_of_mem hmem1) he1 hin1
    have h2 := successful_entry_eq_of_input p2 env input2 output_dir order2 ts2 te2 f
      (List.ne_nil_of_mem hmem2) he2 hin2
    have : some e1 = some e2 := h1.symm.trans h2
    simp only [Option.some.injEq] at this
    rw [this]

theorem claim_C6_noninterference_witness :
    (["a.docx"] : List String).Perm (validate_input_files envC2 ["a.docx"]) ∧
    (["b.docx", "a.docx"] : List String).Perm
        (validate_input_files envC2 ["b.docx", "a.docx"]) ∧
    ("a.docx" : String) ∈ (["a.docx"] : List String) ∧
    ("a.docx" : String) ∈ (["b.docx", "a.docx"] : List String) ∧
    (envC2.validate "a.docx").1 = true ∧
    (((∃ e ∈ (results_of (mkParallelProcessor defaultConfig none) envC2 ["a.docx"] "out"
            ["a.docx"] 0 1).successful, e.input = "a.docx") ↔
        (∃ e ∈ (results_of (mkParallelProcessor defaultConfig (some 2)) envC2
            ["b.docx", "a.docx"] "out" ["b.docx", "a.docx"] 2 3).successful,
            e.input = "a.docx")) ∧
      ((∃ e ∈ (results_of (mkParallelProcessor defaultConfig none) envC2 ["a.docx"] "out"
            ["a.docx"] 0 1).failed, e.input = "a.docx") ↔
        (∃ e ∈ (results_of (mkParallelProcessor defaultConfig (some 2)) envC2
            ["b.docx", "a.docx"] "out" ["b.docx", "a.docx"] 2 3).failed,
            e.input = "a.docx")) ∧
      (∀ e1 ∈ (results_of (mkParallelProcessor defaultConfig none) envC2 ["a.docx"] "out"
          ["a.docx"] 0 1).successful,
        ∀ e2 ∈ (results_of (mkParallelProcessor defaultConfig (some 2)) envC2
            ["b.docx", "a.docx"] "out" ["b.docx", "a.docx"] 2 3).successful,
          e1.input = "a.docx" → e2.input = "a.docx" → e1.output = e2.output)) :=
  ⟨by decide, by decide, by decide, by decide, by decide,
   claim_C6_noninterference (mkParallelProcessor defaultConfig none)
     (mkParallelProcessor defaultConfig (some 2)) envC2 ["a.docx"] ["b.docx", "a.docx"]
     "out" ["a.docx"] ["b.docx", "a.docx"] 0 1 2 3 "a.docx"
     (by decide) (by decide) (by decide) (by decide) (by decide)⟩

/-- C7: For every input file path and output directory, the output PDF
path computed by `_get_output_path` is the output directory joined with the
input file's stem followed by `.pdf`; consequently two distinct input files
whose names have the same stem — e.g. `a/report.docx` and `b/report.docx` —
are mapped to the same output path. -/
theorem claim_C7_output_path :
    (∀ input_path output_dir : String,
        get_output_path input_path output_dir =
          pathJoin output_dir (pathStem input_path ++ ".pdf")) ∧
    (∀ f g output_dir : String, pathStem f = pathStem g →
        get_output_path f output_dir = get_output_path g output_dir) ∧
    pathStem "a/report.docx" = "report" ∧
    pathStem "b/report.docx" = "report" ∧
    (∀ output_dir : String,
        get_output_path "a/report.docx" output_dir =
          get_output_path "b/report.docx" output_dir) ∧
    get_output_path "a/report.docx" "out" = "out/report.pdf" ∧
    "a/report.docx" ≠ "b/report.docx" := by
  refine ⟨fun _ _ => rfl, ?_, by decide, by decide, ?_, by decide, by decide⟩
  · intro f g output_dir h
    unfold get_output_path
    rw [h]
  · intro output_dir
    unfold get_output_path
    rw [show pathStem "a/report.docx" = pathStem "b/report.docx" from by decide]

theorem claim_C7_output_path_witness :
    pathStem "a/report.docx" = pathStem "b/report.docx" ∧
    get_output_path "a/report.docx" "out" = get_output_path "b/report.docx" "out" :=
  ⟨by decide, claim_C7_output_path.2.1 "a/report.docx" "b/report.docx" "out" (by decide)⟩

/-- A concrete environment for C8: no file passes validation. -/
def envC8 : Env :=
  { validate := fun f => (false, some ("Extensión no soportada: " ++ pathSuffix f))
    fut := fun _ o => .result true o none }

/-- C8: If no input file passes validation, `process_files` converts
nothing (no task is submitted and no pool is created) and returns the error
result: `successful` and `failed` empty, `errors` containing exactly the
single message `"No hay archivos válidos para procesar"`, and stats with
`processed_files`, `successful_conversions`, `failed_conversions`,
`success_rate`, `total_time`, `average_time_per_file` and
`files_per_minute` all zero while `total_files` keeps the input count. -/
theorem claim_C8_no_valid_files (p : ParallelProcessor) (env : Env)
    (input_files : List String) (output_dir : String) (order : List String)
    (t_start t_end : ℚ)
    (hall : ∀ f ∈ input_files, (env.validate f).1 = false) :
    submissions_of p env input_files output_dir order t_start t_end = [] ∧
    (process_files p env input_files output_dir order t_start t_end).pool_workers = none ∧
    (results_of p env input_files output_dir order t_start t_end).successful = [] ∧
    (results_of p env input_files output_dir order t_start t_end).failed = [] ∧
    (results_of p env input_files output_dir order t_start t_end).errors =
      ["No hay archivos válidos para procesar"] ∧
    (results_of p env input_files output_dir order t_start t_end).stats =
      { total_files := input_files.length
        processed_files := 0
        successful_conversions := 0
        failed_conversions := 0
        success_rate := 0
        total_time := 0
        average_time_per_file := 0
        files_per_minute := 0 } := by
  have hnil : validate_input_files env input_files = [] := by
    rw [validate_input_files_eq_filter]
    refine List.filter_eq_nil_iff.mpr ?_
    intro a ha
    simp [hall a ha]
  rw [submissions_of, results_of, process_files_of_valid_nil _ _ _ _ _ _ _ hnil]
  simp [create_error_result]

theorem claim_C8_no_valid_files_witness :
    (∀ f ∈ (["notes.txt", "img.png"] : List String), (envC8.validate f).1 = false) ∧
    (submissions_of (mkParallelProcessor defaultConfig none) envC8 ["notes.txt", "img.png"]
        "out" [] 0 1 = [] ∧
      (process_files (mkParallelProcessor defaultConfig none) envC8 ["notes.txt", "img.png"]
        "out" [] 0 1).pool_workers = none ∧
      (results_of (mkParallelProcessor defaultConfig none) envC8 ["notes.txt", "img.png"]
        "out" [] 0 1).successful = [] ∧
      (results_of (mkParallelProcessor defaultConfig none) envC8 ["notes.txt", "img.png"]
        "out" [] 0 1).failed = [] ∧
      (results_of (mkParallelProcessor defaultConfig none) envC8 ["notes.txt", "img.png"]
        "out" [] 0 1).errors = ["No hay archivos válidos para procesar"] ∧
      (results_of (mkParallelProcessor defaultConfig none) envC8 ["notes.txt", "img.png"]
        "out" [] 0 1).stats =
        { total_files := (["notes.txt", "img.png"] : List String).length
          processed_files := 0
          successful_conversions := 0
          failed_conversions := 0
          success_rate := 0
          total_time := 0
          average_time_per_file := 0
          files_per_minute := 0 }) :=
  ⟨by decide,
   claim_C8_no_valid_files (mkParallelProcessor defaultConfig none) envC8
     ["notes.txt", "img.png"] "out" [] 0 1 (by decide)⟩

theorem convert_document_shape {Doc Content : Type} (env : ConvEnv Doc Content)
    (i o : String) :
    convert_document env i o = .ok true ∨
    ∃ s, convert_document env i o = .exn ("Error de conversión: " ++ s) := by
  cases hex : env.fileExists i
  · exact Or.inr ⟨"Archivo de entrada no encontrado: " ++ i, by simp [convert_document, hex]⟩
  · cases hmk : env.mkdirParent o with
    | exn e => exact Or.inr ⟨e, by simp [convert_document, hex, hmk]⟩
    | ok u =>
      cases hld : load_document env i with
      | exn e => exact Or.inr ⟨e, by simp [convert_document, hex, hmk, hld]⟩
      | ok doc =>
        cases hxc : extract_content env doc with
        | exn e => exact Or.inr ⟨e, by simp [convert_document, hex, hmk, hld, hxc]⟩
        | ok content =>
          cases hb : env.build content o with
          | ok u2 =>
            exact Or.inl (by simp [convert_document, generate_pdf, hex, hmk, hld, hxc, hb])
          | exn e =>
            exact Or.inr ⟨"Error generando PDF: " ++ e,
              by simp [convert_document, generate_pdf, hex, hmk, hld, hxc, hb]⟩

/-- C9: `DocumentConverter.convert_document` never returns `False`: for
every input path and output path it either returns `True` or raises a
`ConversionError` (every raised message carries the outer handler's
`"Error de conversión: "` wrapping); in particular a non-existent input
file, an unsupported extension, and any failure inside PDF generation all
surface as a raised `ConversionError`, never as a `False` return value,
despite the declared `bool` return type. -/
theorem claim_C9_convert_document_total (Doc Content : Type)
    (env : ConvEnv Doc Content) (input_path output_path : String) :
    (convert_document env input_path output_path = .ok true ∨
      ∃ s, convert_document env input_path output_path =
        .exn ("Error de conversión: " ++ s)) ∧
    (∀ b : Bool, convert_document env input_path output_path = .ok b → b = true) ∧
    (env.fileExists input_path = false →
      convert_document env input_path output_path =
        .exn ("Error de conversión: " ++
          ("Archivo de entrada no encontrado: " ++ input_path))) ∧
    (env.fileExists input_path = true →
      env.mkdirParent output_path = .ok () →
      lowerEndsWith input_path ".doc" = false →
      lowerEndsWith input_path ".docx" = false →
      convert_document env input_path output_path =
        .exn ("Error de conversión: " ++ ("No se pudo cargar el documento: " ++
          ("Formato no soportado: " ++ pathSuffix input_path)))) ∧
    (∀ (doc : Doc) (content : Content) (e : String),
      env.fileExists input_path = true →
      env.mkdirParent output_path = .ok () →
      load_document env input_path = .ok doc →
      extract_content env doc = .ok content →
      env.build content output_path = .exn e →
      convert_document env input_path output_path =
        .exn ("Error de conversión: " ++ ("Error generando PDF: " ++ e))) := by
  refine ⟨convert_document_shape env input_path output_path, ?_, ?_, ?_, ?_⟩
  · intro b hb
    rcases convert_document_shape env input_path output_path with h | ⟨s, h⟩
    · rw [h] at hb
      exact (PyResult.ok.inj hb).symm
    · rw [h] at hb
      exact absurd hb (by simp)
  · intro hex
    simp [convert_document, hex]
  · intro hex hmk hdoc hdocx
    simp [convert_document, load_document, hex, hmk, hdoc, hdocx]
  · intro doc content e hex hmk hld hxc hb
    simp [convert_document, generate_pdf, hex, hmk, hld, hxc, hb]

/-- C9 witness environment: the input file does not exist. -/
def cenvA : ConvEnv Unit Unit :=
  { fileExists := fun _ => false
    mkdirParent := fun _ => .ok ()
    loadDocx := fun _ => .ok ()
    loadDocAntiword := fun _ => .ok ()
    extract := fun _ => .ok ()
    build := fun _ _ => .ok () }

/-- C9 witness environment: the file exists but everything else is benign;
used for the unsupported-extension case. -/
def cenvB : ConvEnv Unit Unit :=
  { cenvA with fileExists := fun _ => true }

/-- C9 witness environment: the file exists and loads, but PDF generation
raises. -/
def cenvC : ConvEnv Unit Unit :=
  { cenvB with build := fun _ _ => .exn "boom" }

theorem claim_C9_convert_document_total_witness :
    (cenvA.fileExists "missing.docx" = false ∧
      convert_document cenvA "missing.docx" "out/missing.pdf" =
        .exn ("Error de conversión: " ++
          ("Archivo de entrada no encontrado: " ++ "missing.docx"))) ∧
    (cenvB.fileExists "notes.txt" = true ∧
      cenvB.mkdirParent "out/notes.pdf" = .ok () ∧
      lowerEndsWith "notes.txt" ".doc" = false ∧
      lowerEndsWith "notes.txt" ".docx" = false ∧
      convert_document cenvB "notes.txt" "out/notes.pdf" =
        .exn ("Error de conversión: " ++ ("No se pudo cargar el documento: " ++
          ("Formato no soportado: " ++ pathSuffix "notes.txt")))) ∧
    (cenvC.fileExists "a.docx" = true ∧
      cenvC.mkdirParent "out/a.pdf" = .ok () ∧
      load_document cenvC "a.docx" = .ok () ∧
      extract_content cenvC () = .ok () ∧
      cenvC.build () "out/a.pdf" = .exn "boom" ∧
      convert_document cenvC "a.docx" "out/a.pdf" =
        .exn ("Error de conversión: " ++ ("Error generando PDF: " ++ "boom"))) :=
  ⟨⟨rfl,
    (claim_C9_convert_document_total Unit Unit cenvA "missing.docx"
      "out/missing.pdf").2.2.1 rfl⟩,
   ⟨rfl, rfl, by decide, by decide,
    (claim_C9_convert_document_total Unit Unit cenvB "notes.txt"
      "out/notes.pdf").2.2.2.1 rfl rfl (by decide) (by decide)⟩,
   ⟨rfl, rfl, by decide, by decide, rfl,
    (claim_C9_convert_document_total Unit Unit cenvC "a.docx"
      "out/a.pdf").2.2.2.2 () () "boom" rfl rfl (by decide) (by decide) rfl⟩⟩

theorem validate_batch_foldl (validate : String → Bool × Option String)
    (file_paths : List String) :
    ∀ acc : BatchResult,
      file_paths.foldl
        (fun acc file_path =>
          let r := validate file_path
          if r.1 then { acc with valid := acc.valid ++ [file_path] }
          else
            { acc with
              invalid := acc.invalid ++ [file_path]
              errors := acc.errors ++ [file_path ++ ": " ++ pyStrOpt r.2] }) acc =
      { valid := acc.valid ++ file_paths.filter (fun f => (validate f).1)
        invalid := acc.invalid ++ file_paths.filter (fun f => !((validate f).1))
        errors := acc.errors ++ file_paths.filterMap
          (fun f => if (validate f).1 then none
            else some (f ++ ": " ++ pyStrOpt (validate f).2)) } := by
  induction file_paths with
  | nil => intro acc; simp
  | cons a rest ih =>
    intro acc
    rw [List.foldl_cons, ih]
    cases hv : (validate a).1 <;>
      simp [hv, List.filter_cons, List.filterMap_cons, List.append_assoc]

/-- C10: `BatchValidator.validate_batch` enforces a hard batch limit of
100 files: for more than 100 paths it validates none of them (the result
does not depend on the file validator at all) and returns `valid` empty,
`invalid` the entire input list, and exactly one error message; for at most
100 paths every path is classified into exactly one of `valid`/`invalid`
(counted with multiplicity). -/
theorem claim_C10_batch_limit :
    max_files_per_batch = 100 ∧
    (∀ (validate : String → Bool × Option String) (file_paths : List String),
        max_files_per_batch < file_paths.length →
        (validate_batch validate file_paths).valid = [] ∧
        (validate_batch validate file_paths).invalid = file_paths ∧
        (validate_batch validate file_paths).errors.length = 1) ∧
    (∀ (v1 v2 : String → Bool × Option String) (file_paths : List String),
        max_files_per_batch < file_paths.length →
        validate_batch v1 file_paths = validate_batch v2 file_paths) ∧
    (∀ (validate : String → Bool × Option String) (file_paths : List String),
        file_paths.length ≤ max_files_per_batch →
        ∀ f : String,
          (validate_batch validate file_paths).valid.count f +
            (validate_batch validate file_paths).invalid.count f =
            file_paths.count f) ∧
    (∀ (validate : String → Bool × Option String) (file_paths : List String),
        file_paths.length ≤ max_files_per_batch →
        ∀ f ∈ file_paths,
          (f ∈ (validate_batch validate file_paths).valid ∧
              f ∉ (validate_batch validate file_paths).invalid) ∨
            (f ∉ (validate_batch validate file_paths).valid ∧
              f ∈ (validate_batch validate file_paths).invalid)) := by
  have hchar : ∀ (validate : String → Bool × Option String) (file_paths : List String),
      file_paths.length ≤ max_files_per_batch →
      (validate_batch validate file_paths).valid =
          file_paths.filter (fun f => (validate f).1) ∧
        (validate_batch validate file_paths).invalid =
          file_paths.filter (fun f => !((validate f).1)) := by
    intro validate file_paths h
    rw [validate_batch, if_neg (Nat.not_lt.mpr h), validate_batch_foldl]
    simp
  refine ⟨rfl, ?_, ?_, ?_, ?_⟩
  · intro validate file_paths h
    rw [validate_batch, if_pos h]
    simp
  · intro v1 v2 file_paths h
    rw [validate_batch, if_pos h, validate_batch, if_pos h]
  · intro validate file_paths h f
    obtain ⟨hval, hinv⟩ := hchar validate file_paths h
    rw [hval, hinv, List.count_eq_countP, List.count_eq_countP, List.countP_filter,
      List.countP_filter, List.count_eq_countP]
    exact countP_beq_and_split (fun g => g == f) (fun g => (validate g).1) file_paths
  · intro validate file_paths h f hf
    obtain ⟨hval, hinv⟩ := hchar validate file_paths h
    rw [hval, hinv]
    cases hv : (validate f).1
    · refine Or.inr ⟨?_, ?_⟩
      · simp [List.mem_filter, hv]
      · simp [List.mem_filter, hf, hv]
    · refine Or.inl ⟨?_, ?_⟩
      · simp [List.mem_filter, hf, hv]
      · simp [List.mem_filter, hv]

/-- C10 witness validator: only `a.docx` is valid. -/
def validateC10 : String → Bool × Option String :=
  fun f => (f == "a.docx", some "Extensión no soportada")

theorem claim_C10_batch_limit_witness :
    (max_files_per_batch < (List.replicate 101 "a.docx").length ∧
      (validate_batch validateC10 (List.replicate 101 "a.docx")).valid = [] ∧
      (validate_batch validateC10 (List.replicate 101 "a.docx")).invalid =
        List.replicate 101 "a.docx" ∧
      (validate_batch validateC10 (List.replicate 101 "a.docx")).errors.length = 1) ∧
    ((["a.docx", "notes.txt"] : List String).length ≤ max_files_per_batch ∧
      ∀ f : String,
        (validate_batch validateC10 ["a.docx", "notes.txt"]).valid.count f +
          (validate_batch validateC10 ["a.docx", "notes.txt"]).invalid.count f =
          (["a.docx", "notes.txt"] : List String).count f) :=
  ⟨⟨by decide,
    claim_C10_batch_limit.2.1 validateC10 (List.replicate 101 "a.docx") (by decide)⟩,
   ⟨by decide,
    claim_C10_batch_limit.2.2.2.1 validateC10 ["a.docx", "notes.txt"] (by decide)⟩⟩

end PDFConvertor
